import Mathlib

/-!
Verification development for the instance-construction pipeline of the
style-transfer-paraphrase repository: a shallow embedding of
`gpt2_finetune/data_utils.py` and of the output post-processing in
`gpt2_finetune/inference_utils.py`, with theorems about the embedded code.

Modelling conventions:
* numpy integer arrays are `List Int`;
* operations that raise in Python (negative pad widths passed to `np.pad`,
  failed `assert` statements, unparsable integers) are modelled with
  `Option`, where `none` is an aborted computation;
* `random.random() <= 0.5` in the shuffle step is modelled by an explicit
  boolean `coin` drawn from the shared random stream;
* the external tokenizer is a structure of the capabilities the code uses.
-/

namespace STP

/-- `MAX_ROBERTA_LENGTH` from `data_utils.py` line 5. -/
def MAX_ROBERTA_LENGTH : Nat := 502

/-- The run arguments (`args`) consumed by the embedded code. -/
structure Args where
  context_input_type : String
  global_dense_feature_list : String
  content_aggregation : Nat
  upper_length : String
deriving DecidableEq

/-- The run configuration dict (`config`) consumed by the embedded code. -/
structure Config where
  max_prefix_length : Nat
  max_suffix_length : Nat
  max_dense_length : Nat
  global_dense_length : Nat
  roberta_dense_length : Nat
deriving DecidableEq

/-- External tokenizer capability: the special-token ids and the
`convert_tokens_to_ids` function used by `build_segment`.
`additional_special_tokens_ids` holds the indices `[0]`, `[1]`, `[2]`
the code reads. -/
structure Tokenizer where
  pad_token_id : Int
  bos_token_id : Int
  eos_token_id : Int
  additional_special_tokens_ids : Int × Int × Int
  convert_tokens_to_ids : List Int → List Int

/-- `left_padding` (`data_utils.py` lines 180-182): prepend
`total_length - len(data)` copies of `pad_token`.  `none` models numpy
raising on a negative pad width. -/
def left_padding (data : List Int) (pad_token : Int) (total_length : Nat) :
    Option (List Int) :=
  if data.length ≤ total_length then
    some (List.replicate (total_length - data.length) pad_token ++ data)
  else none

/-- `right_padding` (`data_utils.py` lines 184-186): append
`total_length - len(data)` copies of `pad_token`. -/
def right_padding (data : List Int) (pad_token : Int) (total_length : Nat) :
    Option (List Int) :=
  if data.length ≤ total_length then
    some (data ++ List.replicate (total_length - data.length) pad_token)
  else none

/-- Python substring membership `needle in hay` on the character lists. -/
def substrAt : List Char → List Char → Bool
  | needle, [] => needle.isEmpty
  | needle, c :: t => needle.isPrefixOf (c :: t) || substrAt needle t

/-- Python `needle in hay` for strings. -/
def strInStr (needle hay : String) : Bool :=
  substrAt needle.data hay.data

/-- The mutable state of an `Instance` (`data_utils.py` lines 11-109).
The fields built by the pipeline start out empty, as before `preprocess`. -/
structure Instance where
  sent1_tokens : List Int
  sent2_tokens : List Int
  sent1_tokens_tags : Option (List Int)
  truncated : Bool
  init_context_size : Nat
  sent_prefix : List Int := []
  sent_suffix : List Int := []
  sentence : List Int := []
  label : List Int := []
  segment : List Int := []
deriving DecidableEq

/-- `Instance.__init__` (lines 12-20): store the two token sequences, no
tags, `truncated = False`, `init_context_size = max_prefix_length + 1`. -/
def Instance.mk_init (config : Config) (sent1 sent2 : List Int) : Instance :=
  { sent1_tokens := sent1
    sent2_tokens := sent2
    sent1_tokens_tags := none
    truncated := false
    init_context_size := config.max_prefix_length + 1 }

/-- `Instance.truncate` (lines 35-44). -/
def Instance.truncate (inst : Instance) (config : Config) : Instance :=
  let inst :=
    if inst.sent1_tokens.length > config.max_prefix_length then
      { inst with truncated := true
                  sent1_tokens := inst.sent1_tokens.take config.max_prefix_length }
    else inst
  if inst.sent2_tokens.length > config.max_suffix_length then
    { inst with truncated := true
                sent2_tokens := inst.sent2_tokens.take config.max_suffix_length }
  else inst

/-- `Instance.shuffle_prefix_suffix` (lines 46-53).  `coin` is the outcome
of `random.random() <= 0.5` drawn from the globally seeded stream. -/
def Instance.shuffle_prefix_suffix (inst : Instance) (args : Args) (coin : Bool) :
    Instance :=
  if strInStr "_shuffle_" args.context_input_type then
    if coin then
      { inst with sent1_tokens := inst.sent2_tokens
                  sent2_tokens := inst.sent1_tokens }
    else inst
  else if strInStr "_reverse_" args.context_input_type then
    { inst with sent1_tokens := inst.sent2_tokens
                sent2_tokens := inst.sent1_tokens }
  else inst

/-- `Instance.build_sentence` (lines 55-70). -/
def Instance.build_sentence (inst : Instance) (args : Args) (config : Config)
    (tok : Tokenizer) : Option Instance :=
  let pre : Option (List Int) :=
    if args.context_input_type.endsWith "_no_srl_input" then some []
    else left_padding inst.sent1_tokens tok.pad_token_id config.max_prefix_length
  match pre with
  | none => none
  | some sp =>
    match right_padding (inst.sent2_tokens ++ [tok.eos_token_id])
        tok.pad_token_id (config.max_suffix_length + 1) with
    | none => none
    | some ss =>
      some { inst with sent_prefix := sp
                       sent_suffix := ss
                       sentence := sp ++ [tok.bos_token_id] ++ ss }

/-- `Instance.build_label` (lines 72-84). -/
def Instance.build_label (inst : Instance) (config : Config) (tok : Tokenizer) :
    Option Instance :=
  let dense_length := config.global_dense_length + config.roberta_dense_length
  match right_padding (inst.sent2_tokens ++ [tok.eos_token_id]) (-1)
      (config.max_suffix_length + 1) with
  | none => none
  | some label_suffix =>
    let lab : List Int :=
      List.replicate dense_length (-1) ++
      List.replicate ( Instance.sent_prefix inst).length (-1) ++
      [-1] ++ label_suffix
    some { inst with label := lab }

/-- `Instance.build_segment` (lines 86-104). -/
def Instance.build_segment (inst : Instance) (config : Config) (tok : Tokenizer) :
    Option Instance :=
  let dense_length := config.global_dense_length + config.roberta_dense_length
  let ast := tok.additional_special_tokens_ids
  let pre : Option (List Int × Int) :=
    match inst.sent1_tokens_tags with
    | some tags =>
      match left_padding (tok.convert_tokens_to_ids tags) tok.pad_token_id
          config.max_prefix_length with
      | none => none
      | some ps => some (ps, ast.2.1)
    | none =>
      some (( Instance.sent_prefix inst).map (fun _ => ast.2.1), ast.2.2)
  match pre with
  | none => none
  | some (prefix_segment, suffix_segment_tag) =>
    let seg : List Int :=
      List.replicate dense_length ast.1 ++
      prefix_segment ++
      [suffix_segment_tag] ++
      ( Instance.sent_suffix inst).map (fun _ => suffix_segment_tag)
    some { inst with segment := seg }

/-- `Instance.check_constraints` (lines 106-109), as the boolean the two
`assert` statements test.  Lengths compare as (mathematical) integers as
in Python. -/
def Instance.check_constraints (inst : Instance) (config : Config) : Bool :=
  let dense_length :=
    (config.global_dense_length + config.roberta_dense_length : Int)
  (inst.sentence.length : Int) = (inst.label.length : Int) - dense_length &&
  (inst.sentence.length : Int) = (inst.segment.length : Int) - dense_length

/-- Steps 1-5 of `Instance.preprocess` (lines 22-31): truncate,
shuffle/reverse, build sentence, label and segment. -/
def Instance.preprocess_steps (inst : Instance) (args : Args) (config : Config)
    (tok : Tokenizer) (coin : Bool) : Option Instance :=
  let inst := (inst.truncate config).shuffle_prefix_suffix args coin
  match inst.build_sentence args config tok with
  | none => none
  | some inst =>
    match inst.build_label config tok with
    | none => none
    | some inst => inst.build_segment config tok

/-- `Instance.preprocess` (lines 22-33): the five steps followed by the
`check_constraints` assertion. -/
def Instance.preprocess (inst : Instance) (args : Args) (config : Config)
    (tok : Tokenizer) (coin : Bool) : Option Instance :=
  match inst.preprocess_steps args config tok coin with
  | none => none
  | some inst => if inst.check_constraints config then some inst else none

/-- `update_config` (lines 237-262).  `none` models the failed
`assert global_dense_length <= config["max_dense_length"]`. -/
def update_config (args : Args) (config : Config) : Option Config :=
  let config :=
    if args.context_input_type.endsWith "_no_srl_input" then
      { config with max_prefix_length := 0 }
    else config
  let global_dense_length :=
    if args.global_dense_feature_list ≠ "none" then
      (args.global_dense_feature_list.splitOn ",").length
    else 0
  let roberta_dense_length :=
    if args.content_aggregation > MAX_ROBERTA_LENGTH then 0
    else
      ((List.range (MAX_ROBERTA_LENGTH - 1)).filter
        (fun i => i % args.content_aggregation = 0)).length
  if global_dense_length ≤ config.max_dense_length then
    some { config with global_dense_length := global_dense_length
                       roberta_dense_length := roberta_dense_length }
  else none

/-- Python `int(...)` on a digit sequence. -/
def digitsToNat? (cs : List Char) : Option Nat :=
  if cs.isEmpty then none
  else if cs.all (fun c => c.isDigit) then
    some (cs.foldl (fun a c => a * 10 + (c.toNat - 48)) 0)
  else none

/-- Python `int(...)` on a character sequence: optional sign, then
decimal digits; anything else raises (`none`). -/
def pyInt? : List Char → Option Int
  | '-' :: rest => (digitsToNat? rest).map (fun n => -(n : Int))
  | '+' :: rest => (digitsToNat? rest).map (fun n => (n : Int))
  | cs => (digitsToNat? cs).map (fun n => (n : Int))

/-- Python `s.startswith(pre)` on the character lists. -/
def pyStartsWith (needle s : String) : Bool :=
  needle.data.isPrefixOf s.data

/-- The secondary-encoding input of `HPInstance.preprocess_roberta`:
either a whitespace-separated integer string or a numeric tensor
(already a sequence of integers). -/
inductive RobertaSentence where
  | ofString (s : String)
  | tensor (t : List Int)
deriving DecidableEq

/-- Parsing step of `preprocess_roberta` (lines 142-148):
`[int(x) for x in roberta_sentence.split()]` for a string, and the
numpy conversion of a tensor.  `none` models `int` raising. -/
def roberta_parse : RobertaSentence → Option (List Int)
  | .ofString s =>
    ((s.data.splitOnP (fun c => c.isWhitespace)).filter
      (fun w => !w.isEmpty)).mapM pyInt?
  | .tensor t => some t

/-- Normalization step of `preprocess_roberta` (lines 150-156): pad with
fill value 1 or truncate to `MAX_ROBERTA_LENGTH`, then the `assert` on
the resulting length. -/
def roberta_normalize (roberta_sentence : List Int) : Option (List Int) :=
  let padded : Option (List Int) :=
    if roberta_sentence.length < MAX_ROBERTA_LENGTH then
      right_padding roberta_sentence 1 MAX_ROBERTA_LENGTH
    else some (roberta_sentence.take MAX_ROBERTA_LENGTH)
  match padded with
  | none => none
  | some r => if r.length = MAX_ROBERTA_LENGTH then some r else none

/-- `HPInstance.preprocess_roberta` (lines 139-157): parse, then
normalize to length `MAX_ROBERTA_LENGTH`. -/
def preprocess_roberta (input : RobertaSentence) : Option (List Int) :=
  match roberta_parse input with
  | none => none
  | some rs => roberta_normalize rs

/-- Python slicing `l[:k]` for an integer bound `k` (negative bounds
count from the end). -/
def pySliceTo (l : List Int) (k : Int) : List Int :=
  if k < 0 then l.take (l.length - (-k).toNat) else l.take k.toNat

/-- `int(self.args.upper_length.split("_")[-1])` from
`inference_utils.py` line 135. -/
def parse_extra (upper_length : String) : Option Int :=
  ((upper_length.data.splitOn '_').getLast?).bind pyInt?

/-- Instance construction inside `GPT2Generator.generate_batch`
(`inference_utils.py` lines 93-97): an `Instance` whose `sent1_tokens`
and `sent2_tokens` are both the context's token ids, then `preprocess`. -/
def generate_instance (args : Args) (config : Config) (tok : Tokenizer)
    (coin : Bool) (context_ids : List Int) : Option Instance :=
  (Instance.mk_init config context_ids context_ids).preprocess args config tok coin

/-- Post-processing of one output row in `GPT2Generator.generate_batch`
(`inference_utils.py` lines 127-136): drop the first `init_context_size`
positions, cut at the first eos id, and under a `same...` upper-length
policy cut to `len(sent1_tokens) + extra`.  `none` models `int` raising
on the policy string. -/
def generate_batch_row (args : Args) (eos : Int) (sent1_len : Nat)
    (init_context_size : Nat) (row : List Int) : Option (List Int) :=
  let curr := row.drop init_context_size
  let curr := if eos ∈ curr then curr.take (curr.indexOf eos) else curr
  if pyStartsWith "same" args.upper_length then
    match parse_extra args.upper_length with
    | none => none
    | some extra => some (pySliceTo curr ((sent1_len : Int) + extra))
  else some curr

/-! Concrete data used to instantiate the theorems on closed inputs. -/

/-- A concrete tokenizer with GPT2-like special-token ids. -/
def tokW : Tokenizer :=
  { pad_token_id := 50256
    bos_token_id := 50257
    eos_token_id := 50258
    additional_special_tokens_ids := (60000, 60001, 60002)
    convert_tokens_to_ids := fun l => l }

/-- A concrete configuration. -/
def cfgW : Config :=
  { max_prefix_length := 3
    max_suffix_length := 3
    max_dense_length := 2
    global_dense_length := 0
    roberta_dense_length := 0 }

/-- Concrete run arguments: no mode markers, no dense features,
aggregation stride 5, upper-length policy `same_2`. -/
def argsW : Args :=
  { context_input_type := "x"
    global_dense_feature_list := "none"
    content_aggregation := 5
    upper_length := "same_2" }

/-- The instance the pipeline produces from context ids `[1, 2, 3]` under
`argsW`, `cfgW`, `tokW`. -/
def instW : Instance :=
  { sent1_tokens := [1, 2, 3]
    sent2_tokens := [1, 2, 3]
    sent1_tokens_tags := none
    truncated := false
    init_context_size := 4
    sent_prefix := [1, 2, 3]
    sent_suffix := [1, 2, 3, 50258]
    sentence := [1, 2, 3, 50257, 1, 2, 3, 50258]
    label := [-1, -1, -1, -1, 1, 2, 3, 50258]
    segment := [60001, 60001, 60001, 60002, 60002, 60002, 60002, 60002] }

/-- Concrete instance with an oversized first sequence. -/
def instT : Instance := { sent1_tokens := [7, 8], sent2_tokens := [9], sent1_tokens_tags := none, truncated := false, init_context_size := 2 }

/-- Concrete configuration with `max_prefix_length = 1`, `max_suffix_length = 3`. -/
def cfgT : Config := { max_prefix_length := 1, max_suffix_length := 3, max_dense_length := 2, global_dense_length := 0, roberta_dense_length := 0 }

/-- Concrete two-element instance used for the shuffle/reverse step. -/
def instR : Instance := { sent1_tokens := [1], sent2_tokens := [2], sent1_tokens_tags := none, truncated := false, init_context_size := 1 }

/-- Run arguments whose mode contains only the `_reverse_` marker. -/
def argsRev : Args := { context_input_type := "a_reverse_b", global_dense_feature_list := "none", content_aggregation := 1, upper_length := "eos" }

/-- Run arguments whose mode contains both `_shuffle_` and `_reverse_`. -/
def argsSR : Args := { context_input_type := "_shuffle__reverse_", global_dense_feature_list := "none", content_aggregation := 1, upper_length := "eos" }

/-- Run arguments with aggregation stride exactly `MAX_ROBERTA_LENGTH = 502`. -/
def args502 : Args := { context_input_type := "x", global_dense_feature_list := "none", content_aggregation := 502, upper_length := "eos" }

/-- The configuration `update_config argsW cfgW` produces: stride 5 gives
101 secondary-encoder feature slots. -/
def cfgW5 : Config := { max_prefix_length := 3, max_suffix_length := 3, max_dense_length := 2, global_dense_length := 0, roberta_dense_length := 101 }

/-- Run arguments whose mode contains only the `_shuffle_` marker. -/
def argsShuf : Args := { context_input_type := "_shuffle_", global_dense_feature_list := "none", content_aggregation := 1, upper_length := "eos" }

/-- Configuration with different prefix and suffix limits (1 and 2). -/
def cfg12 : Config := { max_prefix_length := 1, max_suffix_length := 2, max_dense_length := 2, global_dense_length := 0, roberta_dense_length := 0 }

/-- Concrete instance state just before `build_label`: the prefix slot
already built, suffix tokens `[7, 8]`. -/
def inst6 : Instance := { sent1_tokens := [1], sent2_tokens := [7, 8], sent1_tokens_tags := none, truncated := false, init_context_size := 2, sent_prefix := [1] }

/-- The result of `build_label inst6 cfgT tokW`. -/
def inst6L : Instance := { sent1_tokens := [1], sent2_tokens := [7, 8], sent1_tokens_tags := none, truncated := false, init_context_size := 2, sent_prefix := [1], label := [-1, -1, 7, 8, 50258, -1] }

/-! Helper lemmas about the embedded operations. -/

theorem right_padding_some {data : List Int} {p : Int} {t : Nat} {r : List Int}
    (h : right_padding data p t = some r) :
    data.length ≤ t ∧ r = data ++ List.replicate (t - data.length) p := by
  unfold right_padding at h
  split at h
  · exact ⟨by assumption, (Option.some.inj h).symm⟩
  · cases h

theorem right_padding_some_length {data : List Int} {p : Int} {t : Nat} {r : List Int}
    (h : right_padding data p t = some r) : r.length = t := by
  obtain ⟨hle, rfl⟩ := right_padding_some h
  simp only [List.length_append, List.length_replicate]
  omega

theorem left_padding_some {data : List Int} {p : Int} {t : Nat} {r : List Int}
    (h : left_padding data p t = some r) :
    data.length ≤ t ∧ r = List.replicate (t - data.length) p ++ data := by
  unfold left_padding at h
  split at h
  · exact ⟨by assumption, (Option.some.inj h).symm⟩
  · cases h

theorem left_padding_some_length {data : List Int} {p : Int} {t : Nat} {r : List Int}
    (h : left_padding data p t = some r) : r.length = t := by
  obtain ⟨hle, rfl⟩ := left_padding_some h
  simp only [List.length_append, List.length_replicate]
  omega

/-- Characterization of `truncate` as a single structure update. -/
theorem truncate_eq (inst : Instance) (config : Config) :
    inst.truncate config =
      { inst with
        sent1_tokens :=
          if config.max_prefix_length < inst.sent1_tokens.length then
            inst.sent1_tokens.take config.max_prefix_length
          else inst.sent1_tokens
        sent2_tokens :=
          if config.max_suffix_length < inst.sent2_tokens.length then
            inst.sent2_tokens.take config.max_suffix_length
          else inst.sent2_tokens
        truncated := inst.truncated ||
          decide (config.max_prefix_length < inst.sent1_tokens.length) ||
          decide (config.max_suffix_length < inst.sent2_tokens.length) } := by
  unfold Instance.truncate
  by_cases h1 : config.max_prefix_length < inst.sent1_tokens.length <;>
    by_cases h2 : config.max_suffix_length < inst.sent2_tokens.length <;>
      simp [h1, h2, Nat.lt_iff_add_one_le]

/-- Characterization of `shuffle_prefix_suffix` as a single conditional swap. -/
theorem shuffle_eq (inst : Instance) (args : Args) (coin : Bool) :
    inst.shuffle_prefix_suffix args coin =
      if (strInStr "_shuffle_" args.context_input_type && coin) ||
         (!strInStr "_shuffle_" args.context_input_type &&
          strInStr "_reverse_" args.context_input_type) then
        { inst with sent1_tokens := inst.sent2_tokens
                    sent2_tokens := inst.sent1_tokens }
      else inst := by
  unfold Instance.shuffle_prefix_suffix
  by_cases h1 : strInStr "_shuffle_" args.context_input_type <;> cases coin <;>
    by_cases h2 : strInStr "_reverse_" args.context_input_type <;> simp [h1, h2]

/-- Success characterization of `build_sentence`. -/
theorem build_sentence_some {inst inst' : Instance} {args : Args} {config : Config}
    {tok : Tokenizer} (h : inst.build_sentence args config tok = some inst') :
    ∃ sp ss, inst' = { inst with sent_prefix := sp, sent_suffix := ss, sentence := sp ++ [tok.bos_token_id] ++ ss } ∧
      ((args.context_input_type.endsWith "_no_srl_input" = true ∧ sp = []) ∨
       (args.context_input_type.endsWith "_no_srl_input" = false ∧
        sp.length = config.max_prefix_length)) ∧
      ss = (inst.sent2_tokens ++ [tok.eos_token_id]) ++
        List.replicate (config.max_suffix_length + 1 -
          (inst.sent2_tokens.length + 1)) tok.pad_token_id ∧
      ss.length = config.max_suffix_length + 1 ∧
      inst.sent2_tokens.length ≤ config.max_suffix_length := by
  have hsuffix :
      ∀ ss, right_padding (inst.sent2_tokens ++ [tok.eos_token_id]) tok.pad_token_id
          (config.max_suffix_length + 1) = some ss →
        ss = (inst.sent2_tokens ++ [tok.eos_token_id]) ++
          List.replicate (config.max_suffix_length + 1 -
            (inst.sent2_tokens.length + 1)) tok.pad_token_id ∧
        ss.length = config.max_suffix_length + 1 ∧
        inst.sent2_tokens.length ≤ config.max_suffix_length := by
    intro ss hss
    obtain ⟨hle, hrep⟩ := right_padding_some hss
    simp only [List.length_append, List.length_singleton] at hle hrep
    exact ⟨hrep, right_padding_some_length hss, by omega⟩
  unfold Instance.build_sentence at h
  split at h
  case isTrue hsrl =>
    split at h
    case h_1 heq => cases h
    case h_2 ss heq =>
      obtain ⟨h1, h2, h3⟩ := hsuffix ss heq
      exact ⟨[], ss, (Option.some.inj h).symm, Or.inl ⟨hsrl, rfl⟩, h1, h2, h3⟩
  case isFalse hsrl =>
    split at h
    case h_1 heq =>
      dsimp only [] at h
      split at h <;> cases h
    case h_2 ss heq =>
      dsimp only [] at h
      split at h
      case h_1 heq2 => cases h
      case h_2 sp heq2 =>
        obtain ⟨h1, h2, h3⟩ := hsuffix ss heq
        refine ⟨sp, ss, (Option.some.inj h).symm, ?_, h1, h2, h3⟩
        exact Or.inr ⟨eq_false_of_ne_true hsrl, left_padding_some_length heq2⟩

/-- Success characterization of `build_label`. -/
theorem build_label_some {inst inst' : Instance} {config : Config} {tok : Tokenizer}
    (h : inst.build_label config tok = some inst') :
    ∃ ls, inst' = { inst with label := List.replicate (config.global_dense_length + config.roberta_dense_length) (-1) ++ List.replicate ( Instance.sent_prefix inst).length (-1) ++ [-1] ++ ls } ∧
      ls = (inst.sent2_tokens ++ [tok.eos_token_id]) ++
        List.replicate (config.max_suffix_length + 1 -
          (inst.sent2_tokens.length + 1)) (-1) ∧
      ls.length = config.max_suffix_length + 1 := by
  unfold Instance.build_label at h
  split at h
  · cases h
  case h_2 ls heq =>
    refine ⟨ls, ?_, ?_, right_padding_some_length heq⟩
    · have := (Option.some.inj h).symm
      simpa using this
    · obtain ⟨hle, rfl⟩ := right_padding_some heq
      simp only [List.length_append, List.length_singleton]

/-- Success characterization of `build_segment`. -/
theorem build_segment_some {inst inst' : Instance} {config : Config} {tok : Tokenizer}
    (h : inst.build_segment config tok = some inst') :
    ∃ ps sst, inst' = { inst with segment := List.replicate (config.global_dense_length + config.roberta_dense_length) tok.additional_special_tokens_ids.1 ++ ps ++ [sst] ++ ( Instance.sent_suffix inst).map (fun _ => sst) } ∧
      ((inst.sent1_tokens_tags = none ∧
          ps.length = ( Instance.sent_prefix inst).length) ∨
       (inst.sent1_tokens_tags ≠ none ∧ ps.length = config.max_prefix_length)) := by
  cases htags : inst.sent1_tokens_tags with
  | none =>
    simp only [Instance.build_segment, htags] at h
    refine ⟨( Instance.sent_prefix inst).map
        (fun _ => tok.additional_special_tokens_ids.2.1),
      tok.additional_special_tokens_ids.2.2, ?_, ?_⟩
    · exact (Option.some.inj h).symm
    · left
      exact ⟨rfl, by simp⟩
  | some tags =>
    simp only [Instance.build_segment, htags] at h
    cases hlp : left_padding (tok.convert_tokens_to_ids tags) tok.pad_token_id
        config.max_prefix_length with
    | none => rw [hlp] at h; cases h
    | some ps =>
      rw [hlp] at h
      simp only [] at h
      refine ⟨ps, tok.additional_special_tokens_ids.2.1, (Option.some.inj h).symm, ?_⟩
      right
      exact ⟨by simp, left_padding_some_length hlp⟩

/-! Claim theorems. -/

/-- C5: for an instance whose `truncated` flag starts out `false`,
`truncate` keeps exactly the first `max_prefix_length` ids of an
oversized `sent1_tokens` (symmetrically `sent2_tokens` versus
`max_suffix_length`), leaves sequences within their limits unchanged,
and sets `truncated` if and only if at least one sequence was
shortened. -/
theorem truncate_spec (inst : Instance) (config : Config)
    (h : inst.truncated = false) :
    ((inst.truncate config).sent1_tokens =
      if config.max_prefix_length < inst.sent1_tokens.length then
        inst.sent1_tokens.take config.max_prefix_length
      else inst.sent1_tokens) ∧
    ((inst.truncate config).sent2_tokens =
      if config.max_suffix_length < inst.sent2_tokens.length then
        inst.sent2_tokens.take config.max_suffix_length
      else inst.sent2_tokens) ∧
    ((inst.truncate config).truncated = true ↔
      (config.max_prefix_length < inst.sent1_tokens.length ∨
       config.max_suffix_length < inst.sent2_tokens.length)) := by
  rw [truncate_eq]
  refine ⟨rfl, rfl, ?_⟩
  simp [h]

/-- Witness for C5: the first sequence of the concrete instance `instT`
(`sent1 = [7, 8]`, `sent2 = [9]`) under `cfgT` (`maxP = 1`, `maxS = 3`)
is cut to `[7]`. -/
theorem truncate_spec_witness :
    instT.truncated = false ∧
    (instT.truncate cfgT).sent1_tokens =
      (if cfgT.max_prefix_length < instT.sent1_tokens.length then
        instT.sent1_tokens.take cfgT.max_prefix_length
      else instT.sent1_tokens) := by
  refine ⟨rfl, ?_⟩
  exact (truncate_spec instT cfgT rfl).1

/-- C7: for any parsed secondary-encoding input (string of integers or
tensor) of any length, `preprocess_roberta` yields a sequence of length
exactly `MAX_ROBERTA_LENGTH = 502`, right-padding with fill value 1 when
the parsed sequence is shorter and keeping only the first 502 ids
otherwise; the length assertion after normalization never fails. -/
theorem preprocess_roberta_norm (input : RobertaSentence) (rs : List Int)
    (h : roberta_parse input = some rs) :
    preprocess_roberta input =
      some (if rs.length < MAX_ROBERTA_LENGTH then
              rs ++ List.replicate (MAX_ROBERTA_LENGTH - rs.length) 1
            else rs.take MAX_ROBERTA_LENGTH) ∧
    (if rs.length < MAX_ROBERTA_LENGTH then
        rs ++ List.replicate (MAX_ROBERTA_LENGTH - rs.length) 1
      else rs.take MAX_ROBERTA_LENGTH).length = MAX_ROBERTA_LENGTH := by
  constructor
  · unfold preprocess_roberta
    rw [h]
    unfold roberta_normalize
    by_cases hc : rs.length < MAX_ROBERTA_LENGTH
    · have h1 : right_padding rs 1 MAX_ROBERTA_LENGTH =
          some (rs ++ List.replicate (MAX_ROBERTA_LENGTH - rs.length) 1) := by
        unfold right_padding
        rw [if_pos (Nat.le_of_lt hc)]
      have h2 : (rs ++ List.replicate (MAX_ROBERTA_LENGTH - rs.length) 1).length =
          MAX_ROBERTA_LENGTH := by
        simp only [List.length_append, List.length_replicate]
        omega
      simp [hc, h1, h2]
    · have h2 : (rs.take MAX_ROBERTA_LENGTH).length = MAX_ROBERTA_LENGTH := by
        simp only [List.length_take]
        omega
      simp [hc, h2]
  · by_cases hc : rs.length < MAX_ROBERTA_LENGTH
    · simp only [if_pos hc, List.length_append, List.length_replicate]
      omega
    · simp only [if_neg hc, List.length_take]
      omega

/-- Witness for C7: the empty tensor input normalizes to 502 copies of
the pad value 1. -/
theorem preprocess_roberta_norm_witness :
    preprocess_roberta (RobertaSentence.tensor []) =
      some (if ([] : List Int).length < MAX_ROBERTA_LENGTH then
              ([] : List Int) ++ List.replicate (MAX_ROBERTA_LENGTH - 0) 1
            else ([] : List Int).take MAX_ROBERTA_LENGTH) ∧
    (if ([] : List Int).length < MAX_ROBERTA_LENGTH then
        ([] : List Int) ++ List.replicate (MAX_ROBERTA_LENGTH - 0) 1
      else ([] : List Int).take MAX_ROBERTA_LENGTH).length = MAX_ROBERTA_LENGTH :=
  preprocess_roberta_norm (RobertaSentence.tensor []) [] rfl

/-- C3 (amended): when the mode string contains the `_reverse_` marker
and does not contain the `_shuffle_` marker, `shuffle_prefix_suffix`
swaps `sent1_tokens` and `sent2_tokens` unconditionally, with the same
result for every outcome of the random stream. -/
theorem reverse_mode_swaps (inst : Instance) (args : Args) (coin : Bool)
    (hrev : strInStr "_reverse_" args.context_input_type = true)
    (hshuf : strInStr "_shuffle_" args.context_input_type = false) :
    (inst.shuffle_prefix_suffix args coin).sent1_tokens = inst.sent2_tokens ∧
    (inst.shuffle_prefix_suffix args coin).sent2_tokens = inst.sent1_tokens ∧
    inst.shuffle_prefix_suffix args coin = inst.shuffle_prefix_suffix args (!coin) := by
  rw [shuffle_eq, shuffle_eq]
  rw [hrev, hshuf]
  simp

/-- Witness for C3: with mode `"a_reverse_b"` the concrete instance
`instR` (`sent1 = [1]`, `sent2 = [2]`) comes out swapped for the coin
value `false`. -/
theorem reverse_mode_swaps_witness :
    strInStr "_reverse_" "a_reverse_b" = true ∧
    strInStr "_shuffle_" "a_reverse_b" = false ∧
    (instR.shuffle_prefix_suffix argsRev false).sent1_tokens = [2] := by
  refine ⟨by decide, by decide, ?_⟩
  exact (reverse_mode_swaps instR argsRev false (by decide) (by decide)).1

/-- Counterexample for C3 as stated: the mode string
`"_shuffle__reverse_"` contains the `_reverse_` marker, yet with coin
outcome `false` the arrays of `instR` are not swapped (`sent1_tokens`
stays `[1]`), while with coin outcome `true` they are: the step consults
the random stream, contradicting the claimed unconditional,
randomness-free swap for every mode string containing the marker. -/
theorem reverse_marker_not_unconditional_cex :
    strInStr "_reverse_" "_shuffle__reverse_" = true ∧
    (instR.shuffle_prefix_suffix argsSR false).sent1_tokens = [1] ∧
    (instR.shuffle_prefix_suffix argsSR true).sent1_tokens = [2] := by
  refine ⟨by decide, by decide, by decide⟩

/-- Cardinality of a filtered `Finset.range` as a filtered-list length. -/
theorem finset_card_filter_range (p : Nat → Prop) [DecidablePred p] (n : Nat) :
    (Finset.filter p (Finset.range n)).card =
      ((List.range n).filter (fun i => decide (p i))).length := rfl

/-- C2 (amended): for a positive aggregation stride, a successful
`update_config` sets `roberta_dense_length` to 0 when the stride exceeds
`MAX_ROBERTA_LENGTH = 502`, and otherwise to the number of indices
`i` in `[0, 500]` with `i mod stride = 0`; in particular stride 502
yields 1 (the index 0), not 0, and stride 1000 yields 0. -/
theorem update_config_roberta_dense_length (args : Args) (config c' : Config)
    (hstride : 0 < args.content_aggregation)
    (h : update_config args config = some c') :
    c'.roberta_dense_length =
      if MAX_ROBERTA_LENGTH < args.content_aggregation then 0
      else (Finset.filter (fun i => i % args.content_aggregation = 0)
             (Finset.range (MAX_ROBERTA_LENGTH - 1))).card := by
  rw [finset_card_filter_range (fun i => i % args.content_aggregation = 0)
    (MAX_ROBERTA_LENGTH - 1)]
  unfold update_config at h
  generalize (if args.context_input_type.endsWith "_no_srl_input" = true then
      { config with max_prefix_length := 0 } else config) = cfg1 at h
  dsimp only [] at h
  split at h
  case isTrue =>
    split at h
    case isTrue =>
      injection h with h2
      subst h2
      dsimp only []
    case isFalse => cases h
  case isFalse =>
    split at h
    case isTrue =>
      injection h with h2
      subst h2
      dsimp only []
    case isFalse => cases h

set_option maxRecDepth 20000 in
/-- Witness for C2: stride 5 on `cfgW` yields 101 slots. -/
theorem update_config_roberta_dense_length_witness :
    cfgW5.roberta_dense_length =
      if MAX_ROBERTA_LENGTH < argsW.content_aggregation then 0
      else (Finset.filter (fun i => i % argsW.content_aggregation = 0)
             (Finset.range (MAX_ROBERTA_LENGTH - 1))).card :=
  update_config_roberta_dense_length argsW cfgW cfgW5 (by decide) (by decide)

set_option maxRecDepth 20000 in
/-- Counterexample for C2 as stated: with stride 502 (which exceeds 501)
`update_config` sets `roberta_dense_length` to 1 (index 0 of `[0, 500]`
is a multiple of everything), not to 0 as claimed. -/
theorem update_config_stride_502_cex :
    (update_config args502 cfgW).map Config.roberta_dense_length = some 1 ∧
    ¬((update_config args502 cfgW).map Config.roberta_dense_length = some 0) := by
  exact ⟨by decide, by decide⟩

/-- C8: `update_config` fails (returns `none`, the failed assertion) if
and only if the derived global dense length — the number of
comma-separated names in the feature list when it is not the sentinel
`"none"`, else 0 — exceeds `max_dense_length`; otherwise it completes
and writes both derived lengths into the configuration. -/
theorem update_config_assert_iff (args : Args) (config c' : Config)
    (hstride : 0 < args.content_aggregation) :
    (update_config args config = none ↔
      config.max_dense_length <
        (if args.global_dense_feature_list ≠ "none" then
          (args.global_dense_feature_list.splitOn ",").length
        else 0)) ∧
    (update_config args config = some c' →
      c'.global_dense_length =
        (if args.global_dense_feature_list ≠ "none" then
          (args.global_dense_feature_list.splitOn ",").length
        else 0) ∧
      c'.roberta_dense_length =
        (if MAX_ROBERTA_LENGTH < args.content_aggregation then 0
         else ((List.range (MAX_ROBERTA_LENGTH - 1)).filter
           (fun i => i % args.content_aggregation = 0)).length)) := by
  have hmd : (if args.context_input_type.endsWith "_no_srl_input" = true then
      { config with max_prefix_length := 0 } else config).max_dense_length =
      config.max_dense_length := by
    split <;> rfl
  unfold update_config
  generalize hgen : (if args.context_input_type.endsWith "_no_srl_input" = true then
      { config with max_prefix_length := 0 } else config) = cfg1 at hmd ⊢
  dsimp only []
  simp only [gt_iff_lt]
  generalize (if args.global_dense_feature_list ≠ "none" then
      (args.global_dense_feature_list.splitOn ",").length else 0) = gdl
  generalize (if MAX_ROBERTA_LENGTH < args.content_aggregation then 0
      else ((List.range (MAX_ROBERTA_LENGTH - 1)).filter
        (fun i => i % args.content_aggregation = 0)).length) = rdl
  split
  case isTrue hle =>
    rw [hmd] at hle
    refine ⟨?_, ?_⟩
    · constructor
      · intro hno
        cases hno
      · intro hlt
        exact absurd hlt (by omega)
    · intro h
      injection h with h2
      subst h2
      exact ⟨rfl, rfl⟩
  case isFalse hle =>
    rw [hmd] at hle
    refine ⟨?_, ?_⟩
    · constructor
      · intro _
        omega
      · intro _
        rfl
    · intro h
      cases h

set_option maxRecDepth 20000 in
/-- Witness for C8: under `argsW` (no dense features, so derived global
length 0) the update does not fail, and writes 0 and 101. -/
theorem update_config_assert_iff_witness :
    (update_config argsW cfgW = none ↔
      cfgW.max_dense_length <
        (if argsW.global_dense_feature_list ≠ "none" then
          (argsW.global_dense_feature_list.splitOn ",").length
        else 0)) ∧
    (update_config argsW cfgW = some cfgW5 →
      cfgW5.global_dense_length =
        (if argsW.global_dense_feature_list ≠ "none" then
          (argsW.global_dense_feature_list.splitOn ",").length
        else 0) ∧
      cfgW5.roberta_dense_length =
        (if MAX_ROBERTA_LENGTH < argsW.content_aggregation then 0
         else ((List.range (MAX_ROBERTA_LENGTH - 1)).filter
           (fun i => i % argsW.content_aggregation = 0)).length)) :=
  update_config_assert_iff argsW cfgW cfgW5 (by decide)

/-- Success of `preprocess_steps` decomposes into success of the three
build steps on the truncated, shuffled state. -/
theorem preprocess_steps_some {inst0 inst : Instance} {args : Args}
    {config : Config} {tok : Tokenizer} {coin : Bool}
    (h : inst0.preprocess_steps args config tok coin = some inst) :
    ∃ i2 i3,
      ((inst0.truncate config).shuffle_prefix_suffix args coin).build_sentence
        args config tok = some i2 ∧
      i2.build_label config tok = some i3 ∧
      i3.build_segment config tok = some inst := by
  unfold Instance.preprocess_steps at h
  dsimp only [] at h
  split at h
  case h_1 heq => cases h
  case h_2 i2 heq =>
    split at h
    case h_1 heq2 => cases h
    case h_2 i3 heq2 => exact ⟨i2, i3, heq, heq2, h⟩

/-- Success of `preprocess` gives success of the five steps together with
a passed `check_constraints` assertion. -/
theorem preprocess_some {inst0 inst : Instance} {args : Args} {config : Config}
    {tok : Tokenizer} {coin : Bool}
    (h : inst0.preprocess args config tok coin = some inst) :
    inst0.preprocess_steps args config tok coin = some inst ∧
    inst.check_constraints config = true := by
  unfold Instance.preprocess at h
  cases hst : inst0.preprocess_steps args config tok coin with
  | none => rw [hst] at h; cases h
  | some i =>
    rw [hst] at h
    dsimp only [] at h
    split at h
    case isTrue hc =>
      injection h with h2
      subst h2
      exact ⟨rfl, hc⟩
    case isFalse hc => cases h

/-- C6: after `build_label`, every label position before the suffix
region — the `dense_length` leading slots, the prefix positions and the
bos slot — equals −1, and the suffix region of the label equals
`sent2_tokens ++ [eos]` right-padded to `max_suffix_length + 1` with
fill value −1, exactly. -/
theorem build_label_masking (inst inst' : Instance) (config : Config)
    (tok : Tokenizer) (h : inst.build_label config tok = some inst') :
    (∀ i, i < (config.global_dense_length + config.roberta_dense_length) +
        ( Instance.sent_prefix inst).length + 1 → inst'.label[i]? = some (-1)) ∧
    inst'.label.drop ((config.global_dense_length + config.roberta_dense_length) +
        ( Instance.sent_prefix inst).length + 1) =
      (inst.sent2_tokens ++ [tok.eos_token_id]) ++
        List.replicate (config.max_suffix_length + 1 -
          (inst.sent2_tokens.length + 1)) (-1) ∧
    (inst'.label.drop ((config.global_dense_length + config.roberta_dense_length) +
        ( Instance.sent_prefix inst).length + 1)).length =
      config.max_suffix_length + 1 := by
  obtain ⟨ls, rfl, hls, hlen⟩ := build_label_some h
  have hlab : ( Instance.label { inst with label := List.replicate (config.global_dense_length + config.roberta_dense_length) (-1) ++ List.replicate ( Instance.sent_prefix inst).length (-1) ++ [-1] ++ ls }) = List.replicate ((config.global_dense_length + config.roberta_dense_length) + ( Instance.sent_prefix inst).length + 1) (-1) ++ ls := by
    dsimp only []
    rw [show ([-1] : List Int) = List.replicate 1 (-1) from (List.replicate_one).symm,
      ← List.replicate_add, ← List.replicate_add]
  rw [hlab]
  refine ⟨?_, ?_, ?_⟩
  · intro i hi
    rw [List.getElem?_append_left (by simpa using hi)]
    simp [List.getElem?_replicate, hi]
  · have hdrop : (List.replicate ((config.global_dense_length +
        config.roberta_dense_length) + ( Instance.sent_prefix inst).length + 1)
          (-1 : Int) ++ ls).drop ((config.global_dense_length +
        config.roberta_dense_length) + ( Instance.sent_prefix inst).length + 1) =
        ls := by
      have := List.drop_left (List.replicate ((config.global_dense_length +
        config.roberta_dense_length) + ( Instance.sent_prefix inst).length + 1)
          (-1 : Int)) ls
      simpa using this
    rw [hdrop, hls]
  · have hdrop : (List.replicate ((config.global_dense_length +
        config.roberta_dense_length) + ( Instance.sent_prefix inst).length + 1)
          (-1 : Int) ++ ls).drop ((config.global_dense_length +
        config.roberta_dense_length) + ( Instance.sent_prefix inst).length + 1) =
        ls := by
      have := List.drop_left (List.replicate ((config.global_dense_length +
        config.roberta_dense_length) + ( Instance.sent_prefix inst).length + 1)
          (-1 : Int)) ls
      simpa using this
    rw [hdrop, hlen]

/-- Witness for C6: `build_label inst6 cfgT tokW` yields the label
`[-1, -1, 7, 8, 50258, -1]`, masked before the suffix region. -/
theorem build_label_masking_witness :
    (∀ i, i < (cfgT.global_dense_length + cfgT.roberta_dense_length) +
        ( Instance.sent_prefix inst6).length + 1 → inst6L.label[i]? = some (-1)) ∧
    inst6L.label.drop ((cfgT.global_dense_length + cfgT.roberta_dense_length) +
        ( Instance.sent_prefix inst6).length + 1) =
      (inst6.sent2_tokens ++ [tokW.eos_token_id]) ++
        List.replicate (cfgT.max_suffix_length + 1 -
          (inst6.sent2_tokens.length + 1)) (-1) ∧
    (inst6L.label.drop ((cfgT.global_dense_length + cfgT.roberta_dense_length) +
        ( Instance.sent_prefix inst6).length + 1)).length =
      cfgT.max_suffix_length + 1 :=
  build_label_masking inst6 inst6L cfgT tokW (by decide)

/-- The truncate and shuffle steps do not change `init_context_size`. -/
theorem truncate_shuffle_init_context_size (inst0 : Instance) (args : Args)
    (config : Config) (coin : Bool) :
    ((inst0.truncate config).shuffle_prefix_suffix args coin).init_context_size =
      inst0.init_context_size := by
  rw [truncate_eq, shuffle_eq]
  split <;> rfl

/-- The truncate and shuffle steps do not change `sent1_tokens_tags`. -/
theorem truncate_shuffle_tags (inst0 : Instance) (args : Args)
    (config : Config) (coin : Bool) :
    ((inst0.truncate config).shuffle_prefix_suffix args coin).sent1_tokens_tags =
      inst0.sent1_tokens_tags := by
  rw [truncate_eq, shuffle_eq]
  split <;> rfl

/-- C9: after a successful pipeline run over a configuration consistent
with the mode (`init_context_size = max_prefix_length + 1`, and
`max_prefix_length = 0` in no-SRL mode, as `update_config` enforces),
the sentence is `sent_prefix ++ [bos] ++ sent_suffix` with the prefix
occupying exactly `init_context_size - 1` positions, so the bos id sits
at index `init_context_size - 1` (position `max_prefix_length`) and
slicing an output row from `init_context_size` onward drops exactly the
prefix region and the bos slot. -/
theorem sentence_bos_position (inst0 inst : Instance) (args : Args)
    (config : Config) (tok : Tokenizer) (coin : Bool)
    (hinit : inst0.init_context_size = config.max_prefix_length + 1)
    (hsrl : args.context_input_type.endsWith "_no_srl_input" = true →
      config.max_prefix_length = 0)
    (h : inst0.preprocess args config tok coin = some inst) :
    inst.sentence = ( Instance.sent_prefix inst) ++ [tok.bos_token_id] ++
      ( Instance.sent_suffix inst) ∧
    ( Instance.sent_prefix inst).length = inst.init_context_size - 1 ∧
    inst.sentence[inst.init_context_size - 1]? = some tok.bos_token_id := by
  obtain ⟨hsteps, hcheck⟩ := preprocess_some h
  obtain ⟨i2, i3, hbs, hbl, hbg⟩ := preprocess_steps_some hsteps
  have hi1 := truncate_shuffle_init_context_size inst0 args config coin
  obtain ⟨sp, ss, hi2, hsp, hssv, hsslen, hs2⟩ := build_sentence_some hbs
  subst hi2
  obtain ⟨ls, hi3, hls, hlslen⟩ := build_label_some hbl
  subst hi3
  obtain ⟨ps, sst, hinst, hpscases⟩ := build_segment_some hbg
  subst hinst
  have hidx : config.max_prefix_length + 1 - 1 = sp.length := by
    rcases hsp with ⟨he, rfl⟩ | ⟨he, hlen⟩
    · rw [hsrl he]
      rfl
    · omega
  refine ⟨rfl, ?_, ?_⟩
  · show sp.length =
      ((inst0.truncate config).shuffle_prefix_suffix args coin).init_context_size - 1
    rw [hi1, hinit, hidx]
  · show (sp ++ [tok.bos_token_id] ++ ss)[((inst0.truncate
        config).shuffle_prefix_suffix args coin).init_context_size - 1]? =
      some tok.bos_token_id
    rw [hi1, hinit, hidx]
    rw [List.getElem?_append_left (by simp)]
    exact List.getElem?_concat_length sp tok.bos_token_id

/-- Witness for C9: the pipeline output `instW` for context `[1, 2, 3]`
has its bos id 50257 at index `init_context_size - 1 = 3`. -/
theorem sentence_bos_position_witness :
    instW.sentence = ( Instance.sent_prefix instW) ++ [tokW.bos_token_id] ++
      ( Instance.sent_suffix instW) ∧
    ( Instance.sent_prefix instW).length = instW.init_context_size - 1 ∧
    instW.sentence[instW.init_context_size - 1]? = some tokW.bos_token_id :=
  sentence_bos_position (Instance.mk_init cfgW [1, 2, 3] [1, 2, 3]) instW
    argsW cfgW tokW false (by decide) (by decide) (by decide)

/-- C1: whenever the five pipeline steps complete (all paddings have
room, which is what the configuration preconditions guarantee — in
particular the tag sequence fits in `max_prefix_length` in tag-input
mode) on an instance that carries tags only outside no-SRL mode, the
`check_constraints` assertion holds; its failure branch is
unreachable. -/
theorem check_constraints_holds (inst0 inst : Instance) (args : Args)
    (config : Config) (tok : Tokenizer) (coin : Bool)
    (hsrl : args.context_input_type.endsWith "_no_srl_input" = true →
      inst0.sent1_tokens_tags = none)
    (h : inst0.preprocess_steps args config tok coin = some inst) :
    inst.check_constraints config = true := by
  obtain ⟨i2, i3, hbs, hbl, hbg⟩ := preprocess_steps_some h
  have htags := truncate_shuffle_tags inst0 args config coin
  obtain ⟨sp, ss, hi2, hsp, hssv, hsslen, hs2⟩ := build_sentence_some hbs
  subst hi2
  obtain ⟨ls, hi3, hls, hlslen⟩ := build_label_some hbl
  subst hi3
  obtain ⟨ps, sst, hinst, hpscases⟩ := build_segment_some hbg
  subst hinst
  dsimp only [] at hpscases
  rcases hpscases with ⟨htn, hps⟩ | ⟨htn, hps⟩
  · unfold Instance.check_constraints
    dsimp only []
    simp only [Bool.and_eq_true, decide_eq_true_eq, List.length_append,
      List.length_replicate, List.length_map, List.length_singleton]
    constructor <;> omega
  · have hnot : args.context_input_type.endsWith "_no_srl_input" = false := by
      by_cases hs : args.context_input_type.endsWith "_no_srl_input" = true
      · exfalso
        apply htn
        rw [htags]
        exact hsrl hs
      · exact eq_false_of_ne_true hs
    rcases hsp with ⟨he, _⟩ | ⟨he, hspl⟩
    · rw [he] at hnot
      cases hnot
    · unfold Instance.check_constraints
      dsimp only []
      simp only [Bool.and_eq_true, decide_eq_true_eq, List.length_append,
        List.length_replicate, List.length_map, List.length_singleton]
      constructor <;> omega

/-- Witness for C1: the pipeline on context `[1, 2, 3]` under `argsW`,
`cfgW`, `tokW` completes with `instW`, which passes the check. -/
theorem check_constraints_holds_witness :
    Instance.check_constraints instW cfgW = true :=
  check_constraints_holds (Instance.mk_init cfgW [1, 2, 3] [1, 2, 3]) instW
    argsW cfgW tokW false (by decide) (by decide)

/-- After the pipeline of `generate_batch`, the first token sequence is
a truncation (or a swap of truncations) of the context, so its length is
bounded by the context length. -/
theorem generate_instance_sent1_le (args : Args) (config : Config)
    (tok : Tokenizer) (coin : Bool) (context_ids : List Int) (inst : Instance)
    (h : generate_instance args config tok coin context_ids = some inst) :
    inst.sent1_tokens.length ≤ context_ids.length := by
  unfold generate_instance at h
  obtain ⟨hsteps, hcheck⟩ := preprocess_some h
  obtain ⟨i2, i3, hbs, hbl, hbg⟩ := preprocess_steps_some hsteps
  obtain ⟨sp, ss, hi2, hsp, hssv, hsslen, hs2⟩ := build_sentence_some hbs
  subst hi2
  obtain ⟨ls, hi3, hls, hlslen⟩ := build_label_some hbl
  subst hi3
  obtain ⟨ps, sst, hinst, hpscases⟩ := build_segment_some hbg
  subst hinst
  dsimp only []
  rw [truncate_eq, shuffle_eq]
  dsimp only [Instance.mk_init]
  split
  · dsimp only []
    split <;> simp [List.length_take]
  · dsimp only []
    split <;> simp [List.length_take]

/-- C4: under a `same_<N>` upper-length policy (nonnegative extra `N`),
each output row of `generate_batch` — after slicing off the first
`init_context_size` positions and cutting at the first eos id — is
further cut to at most `len(sent1_tokens) + N` token ids before
decoding, which is at most `len(original context tokens) + N`. -/
theorem same_length_truncation (args : Args) (config : Config)
    (tok : Tokenizer) (coin : Bool) (context_ids : List Int) (inst : Instance)
    (extra eos : Int) (row out : List Int)
    (hgen : generate_instance args config tok coin context_ids = some inst)
    (hsame : pyStartsWith "same" args.upper_length = true)
    (hex : parse_extra args.upper_length = some extra)
    (hext : 0 ≤ extra)
    (hrow : generate_batch_row args eos inst.sent1_tokens.length
        inst.init_context_size row = some out) :
    out.length ≤ context_ids.length + extra.toNat := by
  have hle := generate_instance_sent1_le args config tok coin context_ids inst hgen
  unfold generate_batch_row at hrow
  dsimp only [] at hrow
  generalize (if eos ∈ row.drop inst.init_context_size then
      (row.drop inst.init_context_size).take
        ((row.drop inst.init_context_size).indexOf eos)
    else row.drop inst.init_context_size) = curr at hrow
  rw [hex] at hrow
  split at hrow
  case isTrue hc =>
    dsimp only [] at hrow
    injection hrow with h2
    subst h2
    unfold pySliceTo
    rw [if_neg (by omega)]
    have htn : ((inst.sent1_tokens.length : Int) + extra).toNat =
        inst.sent1_tokens.length + extra.toNat := by omega
    rw [htn]
    simp only [List.length_take]
    omega
  case isFalse hc => exact absurd hsame hc

/-- Witness for C4: context `[1, 2, 3]`, policy `same_2`, a 12-id output
row: the post-processed row `[9, 9, 9, 9, 9]` has at most 3 + 2 = 5
ids. -/
theorem same_length_truncation_witness :
    ([9, 9, 9, 9, 9] : List Int).length ≤
      ([1, 2, 3] : List Int).length + (2 : Int).toNat :=
  same_length_truncation argsW cfgW tokW false [1, 2, 3] instW 2 50258
    [0, 0, 0, 0, 9, 9, 9, 9, 9, 9, 9, 9] [9, 9, 9, 9, 9]
    (by decide) (by decide) (by decide) (by decide) (by decide)

/-- Swapping the two token sequences of an instance whose sequences are
equal is the identity. -/
theorem swap_eq_self (inst : Instance)
    (h : inst.sent1_tokens = inst.sent2_tokens) :
    ({ inst with sent1_tokens := inst.sent2_tokens, sent2_tokens := inst.sent1_tokens } : Instance) = inst := by
  obtain ⟨s1, s2, tg, tr, ic, pre, suf, sen, lab, seg⟩ := inst
  dsimp only [] at h ⊢
  rw [h]

/-- On an instance whose two sequences are equal, the shuffle step does
not depend on the coin. -/
theorem shuffle_coin_irrel (inst : Instance) (args : Args) (c1 c2 : Bool)
    (h : inst.sent1_tokens = inst.sent2_tokens) :
    inst.shuffle_prefix_suffix args c1 = inst.shuffle_prefix_suffix args c2 := by
  have hs := swap_eq_self inst h
  rw [shuffle_eq, shuffle_eq]
  by_cases h1 : strInStr "_shuffle_" args.context_input_type <;>
    by_cases h2 : strInStr "_reverse_" args.context_input_type <;>
      cases c1 <;> cases c2 <;> simp [h1, h2, hs]

/-- C10 (amended): `generate_batch` builds each `Instance` with both
token sequences equal to the context ids; provided the two truncations
of the context coincide (`context.take max_prefix_length =
context.take max_suffix_length`, e.g. equal limits or a context within
both limits), the shuffle/reverse swap is an identity and the
constructed instance — hence the packed sentence, label and segment
arrays — is independent of the shared random stream. -/
theorem generate_batch_deterministic (args : Args) (config : Config)
    (tok : Tokenizer) (context_ids : List Int) (c1 c2 : Bool)
    (h : context_ids.take config.max_prefix_length =
      context_ids.take config.max_suffix_length) :
    generate_instance args config tok c1 context_ids =
      generate_instance args config tok c2 context_ids := by
  have hts : ((Instance.mk_init config context_ids context_ids).truncate
      config).sent1_tokens =
      ((Instance.mk_init config context_ids context_ids).truncate
      config).sent2_tokens := by
    rw [truncate_eq]
    dsimp only [Instance.mk_init]
    by_cases h1 : config.max_prefix_length < context_ids.length <;>
      by_cases h2 : config.max_suffix_length < context_ids.length
    · rw [if_pos h1, if_pos h2]
      exact h
    · rw [if_pos h1, if_neg h2]
      rw [h]
      exact List.take_of_length_le (by omega)
    · rw [if_neg h1, if_pos h2]
      rw [← h]
      exact (List.take_of_length_le (by omega)).symm
    · rw [if_neg h1, if_neg h2]
  have hirr := shuffle_coin_irrel ((Instance.mk_init config context_ids
      context_ids).truncate config) args c1 c2 hts
  unfold generate_instance Instance.preprocess Instance.preprocess_steps
  rw [hirr]

/-- Witness for C10: with equal prefix/suffix limits (`cfgW`) and
shuffle mode, both coin outcomes give the same instance for context
`[5, 6]`. -/
theorem generate_batch_deterministic_witness :
    generate_instance argsShuf cfgW tokW false [5, 6] =
      generate_instance argsShuf cfgW tokW true [5, 6] :=
  generate_batch_deterministic argsShuf cfgW tokW [5, 6] false true (by decide)

/-- Counterexample for C10 as stated: with `max_prefix_length = 1`,
`max_suffix_length = 2` and shuffle mode, the two coin outcomes give
different results for context `[5, 6]` — after truncation the two
sequences differ, the swap is not an identity, and the swapped run even
fails its prefix padding — so the constructed instances do depend on the
shared random stream. -/
theorem generate_batch_random_dependent_cex :
    generate_instance argsShuf cfg12 tokW false [5, 6] ≠
      generate_instance argsShuf cfg12 tokW true [5, 6] := by decide

end STP
